import Mathlib

/-!
# Stellark — verification of the transaction-orchestration and store layer

A shallow embedding of the core logic of the Stellark frontend
(`src/frontend/src/lib/stellar.ts`, `src/frontend/src/lib/contractService.ts`,
`src/frontend/src/pages/HomePage.tsx`, and the invest modal component), with
theorems settling the behavioural claims of the specification.

Modelling conventions:
* JavaScript numbers are modelled as exact rationals (`ℚ`); `bigint` as `ℤ`.
* Network interactions (account fetch, simulate, sign, submit, poll, sleep)
  are recorded in an explicit `Action` trace; the observable responses of the
  network are packaged in an `Env` record that parameterises the orchestrator.
* The unbounded confirmation-poll loop is modelled with a fuel parameter; the
  theorems quantify over an arbitrary index `k` of the first decided poll, so
  no retry bound is assumed.
* Thrown JS `Error`s become `Except` errors, one constructor per throw site.
-/

namespace Stellark

/-- A JavaScript runtime value, as far as `bigIntToNumber` and the decoded
contract return values need to distinguish them.  Numbers are modelled as
exact rationals. -/
inductive JSValue : Type
  | bigint (i : ℤ)
  | num (q : ℚ)
  | str (s : String)
  | boolean (b : Bool)
  | null
  | undef
  | obj
  deriving DecidableEq

/-- A wire (XDR) contract value; it carries the native value it decodes to,
which is all the orchestrator observes about it. -/
structure ScVal : Type where
  val : JSValue
  deriving DecidableEq

/-- `scValToNative` from the Stellar SDK: decode a wire value to its native
JavaScript representation. -/
def scValToNative (v : ScVal) : JSValue := v.val

/-- `stellar.ts` lines 164–172: convert a value to a `number`; `bigint`s are
coerced, `number`s returned unchanged, anything else maps to `0`. -/
def bigIntToNumber (value : JSValue) : ℚ :=
  match value with
  | JSValue.bigint i => (i : ℚ)
  | JSValue.num n => n
  | _ => 0

/-- The amount encoding used at `contractService.ts` lines 41–42 and 169:
`Math.floor(value * 10_000_000)`, converting a decimal XLM amount to integer
stroops. -/
def encodeAmount (value : ℚ) : ℤ := Int.floor (value * 10000000)

/-! ## Transaction orchestrator (`stellar.ts`) -/

/-- Network response to `server.simulateTransaction`: either a simulation
error (whose `error` field may be absent, `simulated.error || 'Unknown error'`)
or a success carrying the optional simulated return value
(`simulated.result?.retval`). -/
inductive SimResponse : Type
  | err (diag : Option String)
  | ok (retval : Option ScVal)
  deriving DecidableEq

/-- Immediate status of `server.sendTransaction`. -/
inductive SendStatus : Type
  | pending
  | duplicate
  | tryAgainLater
  | error
  deriving DecidableEq

/-- Status returned by `server.getTransaction` while polling. -/
inductive GetTxStatus : Type
  | notFound
  | success
  | failed
  deriving DecidableEq

/-- Externally observable steps an orchestration performs, in order. -/
inductive Action : Type
  | getAccount (addr : String)
  | simulate
  | sign (addr : String)
  | sendTransaction
  | getTransaction
  | sleep (ms : ℕ)
  deriving DecidableEq

/-- One constructor per throw site of `stellar.ts`:
line 62 (`Simulation failed: ...` in `invokeContract`, carrying the network
diagnostic), line 97 (`Transaction failed: ...` carrying the polled status),
line 101 (`Transaction submission failed`), and line 135 (`Simulation failed`
in `readContract`, no diagnostic). -/
inductive ContractError : Type
  | simulationFailed (diag : Option String)
  | transactionFailed (status : GetTxStatus)
  | submissionFailed
  | readSimulationFailed
  deriving DecidableEq

/-- The network's observable behaviour during one orchestrated call:
the simulation response, the immediate submission status, the status the
`i`-th `getTransaction` poll returns, and the confirmed transaction's
optional `returnValue`. -/
structure Env : Type where
  simulation : SimResponse
  sendStatus : SendStatus
  txStatus : ℕ → GetTxStatus
  returnValue : Option ScVal

/-- `result ? scValToNative(result) : null` (`stellar.ts` lines 94–95 and
138–139): decode an optional wire value, `null` when absent. -/
def jsOfReturn (result : Option ScVal) : JSValue :=
  match result with
  | some v => scValToNative v
  | none => JSValue.null

/-- The polling loop of `stellar.ts` lines 87–90: while the `i`-th poll
returns `NOT_FOUND`, sleep 1000 ms and poll again.  `fuel` bounds the
modelled recursion; `none` means the loop was still running after `fuel`
polls. Returns the first decided status and the trace of the loop body. -/
def confirmLoop (txStatus : ℕ → GetTxStatus) (i : ℕ) : ℕ → Option (GetTxStatus × List Action)
  | 0 => none
  | fuel + 1 =>
    if txStatus i = GetTxStatus.notFound then
      match confirmLoop txStatus (i + 1) fuel with
      | none => none
      | some (s, tr) => some (s, Action.sleep 1000 :: Action.getTransaction :: tr)
    else
      some (txStatus i, [])

/-- The trace of `k` executed bodies of the polling loop: each iteration
sleeps 1000 ms and polls `getTransaction` once. -/
def pollTrace : ℕ → List Action
  | 0 => []
  | k + 1 => Action.sleep 1000 :: Action.getTransaction :: pollTrace k

/-- `invokeContract` (`stellar.ts` lines 32–106): fetch the signer's account,
build, simulate (short-circuiting on a simulation error), assemble, sign with
the wallet, submit, and — only when submission returns `PENDING` — poll every
1000 ms until the status leaves `NOT_FOUND`; `SUCCESS` yields the decoded
return value (null when absent), any other decided status throws, and a
non-`PENDING` submission throws `Transaction submission failed`.  The second
component is the trace of network/signer interactions. -/
def invokeContract (env : Env) (walletAddress : String) (fuel : ℕ) :
    Option (Except ContractError JSValue × List Action) :=
  match env.simulation with
  | SimResponse.err diag =>
      some (Except.error (ContractError.simulationFailed diag),
        [Action.getAccount walletAddress, Action.simulate])
  | SimResponse.ok _ =>
      let preTrace := [Action.getAccount walletAddress, Action.simulate,
        Action.sign walletAddress, Action.sendTransaction]
      if env.sendStatus = SendStatus.pending then
        match confirmLoop env.txStatus 0 fuel with
        | none => none
        | some (s, loopTrace) =>
          let trace := preTrace ++ Action.getTransaction :: loopTrace
          if s = GetTxStatus.success then
            some (Except.ok (jsOfReturn env.returnValue), trace)
          else
            some (Except.error (ContractError.transactionFailed s), trace)
      else
        some (Except.error ContractError.submissionFailed, preTrace)

/-- The placeholder source account `readContract` uses
(`stellar.ts` line 120). -/
def dummySource : String := "GAAAAAAAAAAAAAAAAAAAAAAAAAAAAAAAAAAAAAAAAAAAAAAAAAAAAWHF"

/-- `readContract` (`stellar.ts` lines 111–144): build against the dummy
source account, simulate, and return the decoded simulated return value
(`simulated.result?.retval`, null when absent); a simulation error throws
`Simulation failed` (without the diagnostic).  No signing, no submission. -/
def readContract (simulation : SimResponse) :
    Except ContractError JSValue × List Action :=
  match simulation with
  | SimResponse.err _ =>
      (Except.error ContractError.readSimulationFailed,
        [Action.getAccount dummySource, Action.simulate])
  | SimResponse.ok retval =>
      (Except.ok (jsOfReturn retval),
        [Action.getAccount dummySource, Action.simulate])

/-! ## Off-chain metadata store (`contractService.ts`, Supabase tables)

The relational store is modelled as in-memory tables (lists of rows) and each
query as the list transformation the query text denotes: `.eq` filters,
`.order('created_at', \x7b ascending: false \x7d)` sorts newest-first,
`.single()` yields at most one row, and an `\x7b error \x7d` response is
modelled by an explicit error input. Timestamps are modelled as naturals. -/

/-- A row of the `companies` table, with the columns
`getCompaniesMetadata`/`getCompanyMetadata` read.  `contract_id` is `none`
when the column is null or empty (old rows), triggering the
`c.contract_id || c.wallet_address` fallback. -/
structure CompanyRow : Type where
  contract_id : Option String
  wallet_address : String
  name : String
  description : String
  logo_url : String
  token_price : ℚ
  target_amount : ℚ
  created_at : ℕ
  deriving DecidableEq

/-- `CompanyMetadata` as returned to the frontend
(`contractService.ts` lines 222–231). -/
structure CompanyMetadata : Type where
  contractId : String
  name : String
  description : String
  logo_url : String
  owner_wallet : String
  token_price : ℚ
  target_amount : ℚ
  created_at : ℕ
  deriving DecidableEq

/-- The per-row mapping of `getCompaniesMetadata`/`getCompanyMetadata`
(`contractService.ts` lines 275–284 and 299–308). -/
def companyRowToMetadata (c : CompanyRow) : CompanyMetadata :=
  { contractId := c.contract_id.getD c.wallet_address
    name := c.name
    description := c.description
    logo_url := c.logo_url
    owner_wallet := c.wallet_address
    token_price := c.token_price
    target_amount := c.target_amount
    created_at := c.created_at }

/-- Newest-first ordering of company rows, the semantics of
`.order('created_at', \x7b ascending: false \x7d)`. -/
def sortCompaniesByCreatedDesc (rows : List CompanyRow) : List CompanyRow :=
  List.insertionSort (fun a b => b.created_at ≤ a.created_at) rows

/-- `getCompaniesMetadata` (`contractService.ts` lines 264–285): select all
company rows newest-first; a query error yields `[]` (logged, not thrown). -/
def getCompaniesMetadata (table : List CompanyRow) (queryError : Bool) :
    List CompanyMetadata :=
  if queryError then []
  else (sortCompaniesByCreatedDesc table).map companyRowToMetadata

/-- The `\x7b data, error \x7d` shape a supabase `.single()` query resolves
with: `error` is set both when no row matches and on a transport failure;
supabase-js never throws from `await`. -/
structure SingleResponse (α : Type) : Type where
  data : Option α
  error : Option String
  deriving DecidableEq

/-- `getCompanyMetadata` (`contractService.ts` lines 287–309): look up one
company by contract address; `if (error || !data) return null`, otherwise map
the row. -/
def getCompanyMetadata (resp : SingleResponse CompanyRow) :
    Option CompanyMetadata :=
  match resp.error, resp.data with
  | none, some row => some (companyRowToMetadata row)
  | _, _ => none

/-- A row of the `resale_listings` table. -/
structure ListingRow : Type where
  id : String
  company_id : String
  seller_wallet : String
  tokens_for_sale : ℤ
  price_per_token : ℚ
  is_active : Bool
  created_at : ℕ
  deriving DecidableEq

/-- `ResaleListing` as returned to the frontend
(`contractService.ts` lines 233–241). -/
structure ResaleListing : Type where
  id : String
  contract_id : String
  seller_wallet : String
  tokens_for_sale : ℤ
  price_per_token : ℚ
  is_active : Bool
  created_at : ℕ
  deriving DecidableEq

/-- The per-row mapping of `getActiveResaleListings`
(`contractService.ts` lines 375–383). -/
def listingRowToResaleListing (l : ListingRow) : ResaleListing :=
  { id := l.id
    contract_id := l.company_id
    seller_wallet := l.seller_wallet
    tokens_for_sale := l.tokens_for_sale
    price_per_token := l.price_per_token
    is_active := l.is_active
    created_at := l.created_at }

/-- Newest-first ordering of listing rows. -/
def sortListingsByCreatedDesc (rows : List ListingRow) : List ListingRow :=
  List.insertionSort (fun a b => b.created_at ≤ a.created_at) rows

/-- `getActiveResaleListings` (`contractService.ts` lines 363–384): select
rows with `is_active = true`, newest-first; a query error yields `[]`. -/
def getActiveResaleListings (table : List ListingRow) (queryError : Bool) :
    List ResaleListing :=
  if queryError then []
  else
    (sortListingsByCreatedDesc (table.filter (fun l => l.is_active))).map
      listingRowToResaleListing

/-- `updateResaleListingQuantity` (`contractService.ts` lines 386–396):
`update(\x7b tokens_for_sale: newQuantity \x7d).eq('id', id)`. -/
def updateResaleListingQuantity (table : List ListingRow) (id : String)
    (newQuantity : ℤ) : List ListingRow :=
  table.map (fun l =>
    if l.id = id then { l with tokens_for_sale := newQuantity } else l)

/-- `deactivateResaleListing` (`contractService.ts` lines 398–408):
`update(\x7b is_active: false \x7d).eq('id', id)`. -/
def deactivateResaleListing (table : List ListingRow) (id : String) :
    List ListingRow :=
  table.map (fun l => if l.id = id then { l with is_active := false } else l)

/-! ## Reconciliation layer (`HomePage.tsx`) -/

/-- On-chain company info (`contractService.ts` lines 14–23); numeric fields
already narrowed by `bigIntToNumber`. -/
structure CompanyInfo : Type where
  name : String
  symbol : String
  total_supply : ℚ
  owner : String
  equity_percent : ℚ
  description : String
  token_price : ℚ
  target_amount : ℚ
  deriving DecidableEq

/-- `getTokenBalance` (`contractService.ts` lines 186–199): read
`balance_of` via `readContract` and narrow the result; any thrown error is
caught and `0` returned. -/
def getTokenBalance (simulation : SimResponse) : ℚ :=
  match (readContract simulation).1 with
  | Except.error _ => 0
  | Except.ok result => bigIntToNumber result

/-- The tokens-sold derivation of `loadCompanies`
(`HomePage.tsx` lines 59–61): `total_supply - ownerBalance` when on-chain
info is present, else `0`. -/
def tokensSold (onChainInfo : Option CompanyInfo) (ownerBalance : ℚ) : ℚ :=
  match onChainInfo with
  | some info => info.total_supply - ownerBalance
  | none => 0

/-- The settlement step of `handleBuyResale` (`HomePage.tsx` lines 158–169),
run after the on-chain transfer confirmed: compute the remaining tokens and
either overwrite the listing's quantity (when some remain) or deactivate
it. -/
def settleResalePurchase (table : List ListingRow)
    (selectedResale : ResaleListing) (tokens : ℤ) : List ListingRow :=
  let remainingTokens := selectedResale.tokens_for_sale - tokens
  if remainingTokens > 0 then
    updateResaleListingQuantity table selectedResale.id remainingTokens
  else
    deactivateResaleListing table selectedResale.id

/-! ## Invest modal (`InvestModal` component) -/

/-- What `parseInt(e.target.value)` can look like to `handleTokenChange`:
the empty string, a non-numeric string (`NaN`), or an integer. -/
inductive InputValue : Type
  | empty
  | notANumber
  | int (n : ℤ)
  deriving DecidableEq

/-- `handleTokenChange` (InvestModal lines 18–32): empty input resets to 0,
`NaN` leaves the state unchanged, and a parsed number is clamped to
`Math.max(0, Math.min(availableTokens, numValue))`. -/
def handleTokenChange (availableTokens tokens : ℤ) (input : InputValue) : ℤ :=
  match input with
  | InputValue.empty => 0
  | InputValue.notANumber => tokens
  | InputValue.int numValue => max 0 (min availableTokens numValue)

/-- The token count after a sequence of input events, starting from the
initial `useState(1)`. -/
def modalTokens (availableTokens : ℤ) (events : List InputValue) : ℤ :=
  events.foldl (handleTokenChange availableTokens) 1

/-- The confirm button's `disabled` predicate (InvestModal line 91):
`isProcessing || tokens < 1 || tokens > availableTokens`. -/
def investDisabled (availableTokens tokens : ℤ) (isProcessing : Bool) : Bool :=
  isProcessing || decide (tokens < 1) || decide (tokens > availableTokens)

/-! ## Concrete instances used to instantiate the theorems -/

/-- A stored resale-listing row with 100 tokens for sale. -/
def demoListingRow : ListingRow :=
  { id := "L1", company_id := "C7", seller_wallet := "GSELLER",
    tokens_for_sale := 100, price_per_token := 3, is_active := true,
    created_at := 5 }

/-- The frontend's view of `demoListingRow`, as `handleBuyResale` holds it. -/
def demoResale : ResaleListing := listingRowToResaleListing demoListingRow

/-- An active resale-listing row of a one-row table. -/
def demoC6Row : ListingRow :=
  { id := "L2", company_id := "C9", seller_wallet := "GSELLER2",
    tokens_for_sale := 7, price_per_token := 4, is_active := true,
    created_at := 11 }

/-! ## Helper lemmas -/

/-- Exact description of the polling loop: if the first `k` polls (from
index `i`) return `NOT_FOUND` and the `k`-th is decided, the loop returns
that decided status after exactly `k` sleep-and-poll iterations, for any
fuel exceeding `k`. -/
theorem confirmLoop_eq (txStatus : ℕ → GetTxStatus) :
    ∀ (k i fuel : ℕ), k < fuel →
      (∀ j, j < k → txStatus (i + j) = GetTxStatus.notFound) →
      txStatus (i + k) ≠ GetTxStatus.notFound →
      confirmLoop txStatus i fuel = some (txStatus (i + k), pollTrace k) := by
  intro k
  induction k with
  | zero =>
    intro i fuel hfuel hnf hstop
    match fuel, hfuel with
    | fuel + 1, _ =>
      simp only [Nat.add_zero] at hstop
      simp [confirmLoop, pollTrace, hstop]
  | succ k ih =>
    intro i fuel hfuel hnf hstop
    match fuel, hfuel with
    | fuel + 1, hfuel =>
      have h0 : txStatus i = GetTxStatus.notFound := by
        have h := hnf 0 (Nat.succ_pos k)
        simpa using h
      have hrec := ih (i + 1) fuel (by omega)
        (fun j hj => by
          have h := hnf (j + 1) (by omega)
          have e : i + (j + 1) = i + 1 + j := by omega
          rwa [e] at h)
        (by
          have e : i + (k + 1) = i + 1 + k := by omega
          rwa [e] at hstop)
      have e2 : i + 1 + k = i + (k + 1) := by omega
      rw [e2] at hrec
      simp [confirmLoop, h0, hrec, pollTrace]

/-- `find?` commutes with mapping a function that preserves the `id`
field. -/
theorem find?_map_id_preserving (f : ListingRow → ListingRow)
    (hf : ∀ l, (f l).id = l.id) (i : String) :
    ∀ table : List ListingRow,
      (table.map f).find? (fun l => l.id == i) =
        (table.find? (fun l => l.id == i)).map f := by
  intro table
  induction table with
  | nil => rfl
  | cons h t ih =>
    by_cases hh : h.id = i
    · simp [List.find?_cons, hf, hh]
    · simp [List.find?_cons, hf, hh, ih]

/-- `sortCompaniesByCreatedDesc` sorts newest-first. -/
theorem sortCompaniesByCreatedDesc_sorted (rows : List CompanyRow) :
    (sortCompaniesByCreatedDesc rows).Pairwise
      (fun a b => b.created_at ≤ a.created_at) := by
  haveI : IsTotal CompanyRow (fun a b => b.created_at ≤ a.created_at) :=
    ⟨fun a b => le_total b.created_at a.created_at⟩
  haveI : IsTrans CompanyRow (fun a b => b.created_at ≤ a.created_at) :=
    ⟨fun a b c hab hbc => le_trans hbc hab⟩
  exact List.sorted_insertionSort _ rows

/-- `sortListingsByCreatedDesc` sorts newest-first. -/
theorem sortListingsByCreatedDesc_sorted (rows : List ListingRow) :
    (sortListingsByCreatedDesc rows).Pairwise
      (fun a b => b.created_at ≤ a.created_at) := by
  haveI : IsTotal ListingRow (fun a b => b.created_at ≤ a.created_at) :=
    ⟨fun a b => le_total b.created_at a.created_at⟩
  haveI : IsTrans ListingRow (fun a b => b.created_at ≤ a.created_at) :=
    ⟨fun a b c hab hbc => le_trans hbc hab⟩
  exact List.sorted_insertionSort _ rows

/-! ## Claim theorems -/

/-- **C1.** For every orchestrated state-changing contract call, if the
simulation dry-run reports an error, `invokeContract` fails with the
simulation error carrying the network's diagnostic and its interaction trace
stops at the simulation, so no signing request is ever issued; and in any
run whatsoever, a signing request appears in the trace only when the
simulation reported no error. -/
theorem invokeContract_simulation_before_sign (env : Env) (w : String)
    (fuel : ℕ) :
    (∀ diag, env.simulation = SimResponse.err diag →
      invokeContract env w fuel =
        some (Except.error (ContractError.simulationFailed diag),
          [Action.getAccount w, Action.simulate])) ∧
    (∀ res trace, invokeContract env w fuel = some (res, trace) →
      (∃ a, Action.sign a ∈ trace) →
      ∃ retval, env.simulation = SimResponse.ok retval) := by
  constructor
  · intro diag hd
    simp [invokeContract, hd]
  · intro res trace hinv hsign
    cases hsim : env.simulation with
    | ok retval => exact ⟨retval, rfl⟩
    | err diag =>
      obtain ⟨a, ha⟩ := hsign
      simp [invokeContract, hsim] at hinv
      obtain ⟨-, htr⟩ := hinv
      rw [← htr] at ha
      simp at ha

/-- **C1 witness**: a concrete run whose simulation errs short-circuits with
the diagnostic and a sign-free trace. -/
theorem invokeContract_simulation_before_sign_witness :
    invokeContract
      { simulation := SimResponse.err (some "host invocation failed"),
        sendStatus := SendStatus.pending,
        txStatus := fun _ => GetTxStatus.success,
        returnValue := none } "GWALLET" 3 =
      some (Except.error
          (ContractError.simulationFailed (some "host invocation failed")),
        [Action.getAccount "GWALLET", Action.simulate]) :=
  (invokeContract_simulation_before_sign _ "GWALLET" 3).1 _ rfl

/-- **C4.** For every orchestrated call that reaches submission (simulation
reported no error): a non-`PENDING` immediate submission result makes the
call fail with the terminal submission failure; a `PENDING` result makes the
orchestrator poll while the status is `NOT_FOUND` — each of the `k`
iterations sleeping exactly 1000 ms, for an arbitrary (unbounded) `k` —
and on `SUCCESS` return the decoded return value (`null` when absent),
on any other decided status fail with the transaction failure carrying that
status. -/
theorem invokeContract_submit_confirm (env : Env) (w : String)
    (v : Option ScVal) (k fuel : ℕ)
    (hsim : env.simulation = SimResponse.ok v)
    (hnf : ∀ j, j < k → env.txStatus j = GetTxStatus.notFound)
    (hstop : env.txStatus k ≠ GetTxStatus.notFound)
    (hfuel : k < fuel) :
    (env.sendStatus ≠ SendStatus.pending →
      invokeContract env w fuel =
        some (Except.error ContractError.submissionFailed,
          [Action.getAccount w, Action.simulate, Action.sign w,
            Action.sendTransaction])) ∧
    (env.sendStatus = SendStatus.pending →
      invokeContract env w fuel =
        some ((if env.txStatus k = GetTxStatus.success
            then Except.ok (jsOfReturn env.returnValue)
            else Except.error
              (ContractError.transactionFailed (env.txStatus k))),
          [Action.getAccount w, Action.simulate, Action.sign w,
            Action.sendTransaction, Action.getTransaction] ++ pollTrace k)) ∧
    (∀ m ms, Action.sleep ms ∈ pollTrace m → ms = 1000) ∧
    jsOfReturn none = JSValue.null := by
  refine ⟨?_, ?_, ?_, rfl⟩
  · intro hsend
    simp [invokeContract, hsim, hsend]
  · intro hsend
    have hcl := confirmLoop_eq env.txStatus k 0 fuel hfuel
      (fun j hj => by simpa using hnf j hj) (by simpa using hstop)
    simp only [Nat.zero_add] at hcl
    by_cases hsucc : env.txStatus k = GetTxStatus.success
    · simp [invokeContract, hsim, hsend, hcl, hsucc]
    · simp [invokeContract, hsim, hsend, hcl, hsucc]
  · intro m
    induction m with
    | zero =>
      intro ms h
      simp [pollTrace] at h
    | succ m ih =>
      intro ms h
      simp only [pollTrace, List.mem_cons] at h
      rcases h with h | h | h
      · cases h; rfl
      · cases h
      · exact ih ms h

/-- **C4 witness**: a concrete pending submission whose first two polls
return `NOT_FOUND` and third returns `SUCCESS` yields the decoded return
value after two 1000 ms sleeps. -/
theorem invokeContract_submit_confirm_witness :
    invokeContract
      { simulation := SimResponse.ok none,
        sendStatus := SendStatus.pending,
        txStatus := fun j =>
          if j < 2 then GetTxStatus.notFound else GetTxStatus.success,
        returnValue := some ⟨JSValue.bigint 5⟩ } "GW" 4 =
      some (Except.ok (JSValue.bigint 5),
        [Action.getAccount "GW", Action.simulate, Action.sign "GW",
          Action.sendTransaction, Action.getTransaction,
          Action.sleep 1000, Action.getTransaction,
          Action.sleep 1000, Action.getTransaction]) := by
  have h := (invokeContract_submit_confirm
    { simulation := SimResponse.ok none,
      sendStatus := SendStatus.pending,
      txStatus := fun j =>
        if j < 2 then GetTxStatus.notFound else GetTxStatus.success,
      returnValue := some ⟨JSValue.bigint 5⟩ } "GW" none 2 4 rfl
    (fun j hj => if_pos hj) (by decide) (by decide)).2.1 rfl
  simpa [pollTrace, jsOfReturn, scValToNative] using h

/-- **C8.** Every read-only query performs only the build and simulate steps
against the placeholder source account — its trace contains no signing, no
submission and no polling — and a successful simulation yields the decoded
simulated return value directly (`null` when absent), while a simulation
error fails with the read-path simulation error. -/
theorem readContract_simulate_only (simulation : SimResponse) :
    (readContract simulation).2 =
      [Action.getAccount dummySource, Action.simulate] ∧
    (∀ a, Action.sign a ∉ (readContract simulation).2) ∧
    Action.sendTransaction ∉ (readContract simulation).2 ∧
    Action.getTransaction ∉ (readContract simulation).2 ∧
    (∀ retval, simulation = SimResponse.ok retval →
      (readContract simulation).1 = Except.ok (jsOfReturn retval)) ∧
    (∀ diag, simulation = SimResponse.err diag →
      (readContract simulation).1 =
        Except.error ContractError.readSimulationFailed) := by
  cases simulation <;> simp [readContract]

/-- **C8 witness**: a concrete successful simulation returns its simulated
value, and an erroring one fails. -/
theorem readContract_simulate_only_witness :
    (readContract (SimResponse.ok (some ⟨JSValue.num 7⟩))).1 =
      Except.ok (JSValue.num 7) :=
  (readContract_simulate_only _).2.2.2.2.1 _ rfl

/-- **C2.** Settlement invariant: for a stored listing row with
`tokens_for_sale = T` (as the frontend also sees it) and a confirmed
purchase of `n ≤ T` tokens, settlement leaves the row with
`tokens_for_sale = T - n` and `is_active = true` when `n < T`, and with
`is_active = false` when `n = T`. -/
theorem settleResalePurchase_invariant (table : List ListingRow)
    (sel : ResaleListing) (row : ListingRow) (n : ℤ)
    (hfind : table.find? (fun l => l.id == sel.id) = some row)
    (hqty : sel.tokens_for_sale = row.tokens_for_sale)
    (hact : row.is_active = true)
    (_h1 : 1 ≤ n) (_hn : n ≤ row.tokens_for_sale) :
    (n < row.tokens_for_sale →
      ∃ row',
        (settleResalePurchase table sel n).find? (fun l => l.id == sel.id) =
          some row' ∧
        row'.tokens_for_sale = row.tokens_for_sale - n ∧
        row'.is_active = true) ∧
    (n = row.tokens_for_sale →
      ∃ row',
        (settleResalePurchase table sel n).find? (fun l => l.id == sel.id) =
          some row' ∧
        row'.is_active = false) := by
  have hp : (row.id == sel.id) = true := by simpa using List.find?_some hfind
  have hid : row.id = sel.id := eq_of_beq hp
  constructor
  · intro hlt
    have hpos : sel.tokens_for_sale - n > 0 := by omega
    refine ⟨{ row with tokens_for_sale := sel.tokens_for_sale - n },
      ?_, ?_, hact⟩
    · simp only [settleResalePurchase, updateResaleListingQuantity]
      rw [if_pos hpos,
        find?_map_id_preserving _ (fun l => by split <;> rfl) _ table, hfind]
      simp [hid]
    · show sel.tokens_for_sale - n = row.tokens_for_sale - n
      omega
  · intro heq
    have hpos : ¬ sel.tokens_for_sale - n > 0 := by omega
    refine ⟨{ row with is_active := false }, ?_, rfl⟩
    simp only [settleResalePurchase, deactivateResaleListing]
    rw [if_neg hpos,
      find?_map_id_preserving _ (fun l => by split <;> rfl) _ table, hfind]
    simp [hid]

/-- **C2 witness**: scenario with `T = 100`, `n = 40`: the stored row ends
with 60 tokens for sale and stays active. -/
theorem settleResalePurchase_invariant_witness :
    ∃ row',
      (settleResalePurchase [demoListingRow] demoResale 40).find?
        (fun l => l.id == demoResale.id) = some row' ∧
      row'.tokens_for_sale = demoListingRow.tokens_for_sale - 40 ∧
      row'.is_active = true :=
  (settleResalePurchase_invariant [demoListingRow] demoResale demoListingRow
    40 (by decide) rfl rfl (by decide) (by decide)).1 (by decide)

/-- **C3 (counterexample).** The claim that a store transport failure
propagates as a distinguishable persistence error is false: on an error
response `getCompanyMetadata` returns `none`, exactly the value it returns
for a no-matching-row response, and its result type has no error outcome at
all — the failure is folded into the not-found result. -/
theorem getCompanyMetadata_folds_failure :
    getCompanyMetadata
      { data := none, error := some "TypeError: Failed to fetch" } = none ∧
    getCompanyMetadata
      { data := none,
        error := some "PGRST116: The result contains 0 rows" } = none ∧
    getCompanyMetadata
        { data := none, error := some "TypeError: Failed to fetch" } =
      getCompanyMetadata
        { data := none,
          error := some "PGRST116: The result contains 0 rows" } :=
  ⟨rfl, rfl, rfl⟩

/-- **C3 (amended).** `getCompanyMetadata` returns the mapped row when the
store returned one without error, and returns `none` both when no row
matched and when the store reported an error: a transport failure is not
distinguishable from not-found and no persistence error propagates. -/
theorem getCompanyMetadata_not_found_behaviour
    (resp : SingleResponse CompanyRow) :
    (resp.error = none → ∀ row, resp.data = some row →
      getCompanyMetadata resp = some (companyRowToMetadata row)) ∧
    (resp.data = none → getCompanyMetadata resp = none) ∧
    (∀ e, resp.error = some e → getCompanyMetadata resp = none) := by
  obtain ⟨d, e⟩ := resp
  refine ⟨?_, ?_, ?_⟩
  · intro he row hd
    subst he
    subst hd
    rfl
  · intro hd
    subst hd
    cases e <;> rfl
  · intro x he
    subst he
    cases d <;> rfl

/-- **C3 (amended) witness**: a concrete transport failure yields `none`. -/
theorem getCompanyMetadata_not_found_behaviour_witness :
    getCompanyMetadata
      { data := none, error := some "connection refused" } = none :=
  (getCompanyMetadata_not_found_behaviour _).2.2 _ rfl

/-- **C5.** The amount encoding converts a non-negative decimal amount to
integer base units as the floor of `value * 10_000_000` (numbers modelled as
exact rationals); in particular `encodeAmount 0.10 = 1_000_000`, and
narrowing the wire integer `1_000_000` with `bigIntToNumber` yields the
native number `1_000_000`. -/
theorem encodeAmount_floor_scaling (value : ℚ) (_hv : 0 ≤ value) :
    encodeAmount value = Int.floor (value * 10000000) ∧
    encodeAmount (1 / 10) = 1000000 ∧
    bigIntToNumber (JSValue.bigint 1000000) = 1000000 := by
  refine ⟨rfl, ?_, ?_⟩
  · show Int.floor ((1 / 10 : ℚ) * 10000000) = 1000000
    norm_num
  · show ((1000000 : ℤ) : ℚ) = 1000000
    norm_num

/-- **C5 witness**: instantiated at the scenario value `0.10`. -/
theorem encodeAmount_floor_scaling_witness :
    encodeAmount (1 / 10) = 1000000 :=
  (encodeAmount_floor_scaling (1 / 10) (by norm_num)).2.1

/-- **C6.** Company and active-resale-listing queries return sequences
ordered non-increasing by creation time; every returned resale listing has
`is_active = true`; and an empty table yields the empty sequence, not an
error. -/
theorem store_listings_ordering (companies : List CompanyRow)
    (table : List ListingRow) (e1 e2 : Bool) :
    (getCompaniesMetadata companies e1).Pairwise
      (fun a b => b.created_at ≤ a.created_at) ∧
    (getActiveResaleListings table e2).Pairwise
      (fun a b => b.created_at ≤ a.created_at) ∧
    (∀ l, l ∈ getActiveResaleListings table e2 → l.is_active = true) ∧
    getCompaniesMetadata [] e1 = [] ∧
    getActiveResaleListings [] e2 = [] := by
  refine ⟨?_, ?_, ?_, ?_, ?_⟩
  · cases e1 with
    | true => simp [getCompaniesMetadata]
    | false =>
      simp only [getCompaniesMetadata, Bool.false_eq_true, if_false]
      exact List.pairwise_map.mpr (sortCompaniesByCreatedDesc_sorted companies)
  · cases e2 with
    | true => simp [getActiveResaleListings]
    | false =>
      simp only [getActiveResaleListings, Bool.false_eq_true, if_false]
      exact List.pairwise_map.mpr (sortListingsByCreatedDesc_sorted _)
  · intro l hl
    cases e2 with
    | true => simp [getActiveResaleListings] at hl
    | false =>
      simp only [getActiveResaleListings, Bool.false_eq_true, if_false] at hl
      obtain ⟨row, hrow, rfl⟩ := List.mem_map.mp hl
      have hmem : row ∈ table.filter (fun l => l.is_active) :=
        (List.perm_insertionSort _ _).subset hrow
      have hfilter := (List.mem_filter.mp hmem).2
      simpa [listingRowToResaleListing] using hfilter
  · cases e1 <;> rfl
  · cases e2 <;> rfl

/-- **C6 witness**: a concrete one-row table yields a listing that is
active. -/
theorem store_listings_ordering_witness :
    (listingRowToResaleListing demoC6Row).is_active = true :=
  (store_listings_ordering [] [demoC6Row] false false).2.2.1 _ (by decide)

/-- **C7.** Purchase-quantity guard of the invest modal: typed quantities
are clamped into `[0, availableTokens]`, and whenever the confirm button is
enabled the submitted quantity `n` (the modal's token state, from any
sequence of input events) satisfies `1 ≤ n ≤ availableTokens`, so `n > T`
is rejected before any transaction is submitted. -/
theorem investModal_quantity_guard (availableTokens t n : ℤ)
    (events : List InputValue) (p : Bool) :
    (0 ≤ availableTokens →
      handleTokenChange availableTokens t (InputValue.int n) ≤
        availableTokens ∧
      0 ≤ handleTokenChange availableTokens t (InputValue.int n)) ∧
    (investDisabled availableTokens (modalTokens availableTokens events) p =
        false →
      1 ≤ modalTokens availableTokens events ∧
      modalTokens availableTokens events ≤ availableTokens) := by
  constructor
  · intro h0
    exact ⟨max_le h0 (min_le_left _ _), le_max_left 0 _⟩
  · intro hd
    simp only [investDisabled, Bool.or_eq_false_iff,
      decide_eq_false_iff_not, not_lt] at hd
    omega

/-- **C7 witness**: with 50 tokens available, typing `1000` clamps the state
to 50 and the enabled confirm button submits a quantity within bounds. -/
theorem investModal_quantity_guard_witness :
    1 ≤ modalTokens 50 [InputValue.int 1000] ∧
    modalTokens 50 [InputValue.int 1000] ≤ 50 :=
  (investModal_quantity_guard 50 0 0 [InputValue.int 1000] false).2 (by decide)

/-- **C9.** `bigIntToNumber` is total (a Lean function into `ℚ`, so it never
throws): a `bigint` input yields its numeric coercion, a `number` input is
returned unchanged, and any other input silently yields `0`. -/
theorem bigIntToNumber_total_behaviour (i : ℤ) (q : ℚ) (v : JSValue) :
    bigIntToNumber (JSValue.bigint i) = (i : ℚ) ∧
    bigIntToNumber (JSValue.num q) = q ∧
    ((∀ j, v ≠ JSValue.bigint j) → (∀ r, v ≠ JSValue.num r) →
      bigIntToNumber v = 0) := by
  refine ⟨rfl, rfl, ?_⟩
  intro hb hn
  cases v
  case bigint j => exact absurd rfl (hb j)
  case num r => exact absurd rfl (hn r)
  all_goals rfl

/-- **C9 witness**: a string input yields `0` rather than an error. -/
theorem bigIntToNumber_total_behaviour_witness :
    bigIntToNumber (JSValue.str "zero") = 0 :=
  (bigIntToNumber_total_behaviour 1 1 (JSValue.str "zero")).2.2
    (fun _ h => JSValue.noConfusion h) (fun _ h => JSValue.noConfusion h)

/-- **C10.** `getTokenBalance` returns `0` whenever the underlying on-chain
read fails (its result type has no error outcome), so the derived
tokens-sold figure of `loadCompanies` silently equals the full total supply
when the owner-balance read fails. -/
theorem getTokenBalance_failure_masks (diag : Option String)
    (info : CompanyInfo) :
    getTokenBalance (SimResponse.err diag) = 0 ∧
    tokensSold (some info) (getTokenBalance (SimResponse.err diag)) =
      info.total_supply := by
  refine ⟨rfl, ?_⟩
  show info.total_supply - getTokenBalance (SimResponse.err diag) =
    info.total_supply
  simp [getTokenBalance, readContract]

end Stellark
